import Mathlib

/-!
Verification of the invoice computation in `src/app.py` (`generate_invoice`).

The computational core of `generate_invoice` is embedded shallowly:
numeric values (quantities, prices, tax percentage, totals) are exact
rationals, idealising Python's float arithmetic; the table `data` built on
lines 42-59 becomes a `List (List String)`; the two `datetime.now()` reads
on lines 38-39 become reads of an explicit clock sequence; the `drawOn`
y coordinate of line 78 becomes `tableDrawY`.  The PDF byte emission by
reportlab is outside the embedding; the observable outputs modelled are the
table rows, the three totals, the timestamp text lines, and the table draw
position.
-/

namespace Invoice

/-- Floor of a rational: mathematical floor via flooring integer division
of numerator by denominator. -/
def ratFloor (q : ℚ) : ℤ := Int.fdiv q.num q.den

/-- Round a rational to the nearest integer, ties to even.  This is the
rounding rule applied by the fixed-point float formatting of Python
(`f"..."` with a `.2f` directive, on line 49 and lines 57-59), idealised
to exact decimal input. -/
def roundHalfEven (q : ℚ) : ℤ :=
  let f := ratFloor q
  let frac := q - (f : ℚ)
  if frac < 1 / 2 then f
  else if 1 / 2 < frac then f + 1
  else if f % 2 = 0 then f else f + 1

/-- Left-pad a digit string with zeros to width `k`. -/
def padZeros (k : ℕ) (s : String) : String :=
  String.mk (List.replicate (k - s.length) '0') ++ s

/-- `f"{q:.2f}"`: format a number with exactly two decimal places,
rounding once at display time. -/
def format2 (q : ℚ) : String :=
  let n := roundHalfEven (q * 100)
  let a := n.natAbs
  let s := toString (a / 100) ++ "." ++ padZeros 2 (toString (a % 100))
  if n < 0 then "-" ++ s else s

/-- Number of decimal digits needed to write `q` as an exact finite
decimal (searched up to 17, the longest a Python float ever needs). -/
def decDigits (q : ℚ) : Option ℕ :=
  (List.range 18).find? fun k => (q * (10 : ℚ) ^ k).den = 1

/-- The `str()` rendering Python applies to the tax percentage float (the
`{tax_percentage}` interpolation on line 58): shortest exact decimal form,
with a trailing `.0` on whole numbers (e.g. `18` renders as `"18.0"`). -/
def pyFloatStr (q : ℚ) : String :=
  match decDigits q with
  | some 0 => toString q.num ++ ".0"
  | some (k + 1) =>
      let m := (q * (10 : ℚ) ^ (k + 1)).num
      let a := m.natAbs
      let s := toString (a / 10 ^ (k + 1)) ++ "." ++ padZeros (k + 1) (toString (a % 10 ^ (k + 1)))
      if m < 0 then "-" ++ s else s
  | none => toString q.num ++ "/" ++ toString q.den

/-- One invoice line item, as unpacked on line 47 of the source:
`item_name, qty, price = item`.  Quantities are integers (the
`number_input` fields of the UI have an integral minimum and default),
prices exact rationals. -/
structure LineItem where
  item_name : String
  qty : ℤ
  price : ℚ
deriving DecidableEq

/-- Exact line total `qty * price` (line 48), computed at full precision. -/
def lineTotal (it : LineItem) : ℚ := (it.qty : ℚ) * it.price

/-- The input record of `generate_invoice` (line 12), minus the logo path,
which only affects an optional image drawing call. -/
structure InvoiceRequest where
  company_name : String
  customer_name : String
  customer_email : String
  items : List LineItem
  currency : String
  tax_percentage : ℚ
deriving DecidableEq

/-- The table header row built on line 42. -/
def headerRow (currency : String) : List String :=
  ["Item", "Quantity", "Unit Price (" ++ currency ++ ")", "Total Price (" ++ currency ++ ")"]

/-- The display row appended for one item on line 49. -/
def itemRow (it : LineItem) : List String :=
  [it.item_name, toString it.qty, format2 it.price, format2 ((it.qty : ℚ) * it.price)]

/-- The item loop of lines 46-50: threads the accumulating pair
`(data, total_amount)` through the item list, appending one display row
per item and adding the exact (unrounded) line total to the accumulator. -/
def itemsLoop : List LineItem → List (List String) → ℚ → List (List String) × ℚ
  | [], data, total => (data, total)
  | it :: rest, data, total =>
      let total_price := (it.qty : ℚ) * it.price
      itemsLoop rest
        (data ++ [[it.item_name, toString it.qty, format2 it.price, format2 total_price]])
        (total + total_price)

/-- `total_amount` after the loop (lines 43-50): the subtotal, accumulated
at full precision. -/
def total_amount (inp : InvoiceRequest) : ℚ :=
  (itemsLoop inp.items [headerRow inp.currency] 0).2

/-- `tax_amount = (total_amount * tax_percentage) / 100` (line 53). -/
def tax_amount (inp : InvoiceRequest) : ℚ :=
  total_amount inp * inp.tax_percentage / 100

/-- `grand_total = total_amount + tax_amount` (line 54). -/
def grand_total (inp : InvoiceRequest) : ℚ :=
  total_amount inp + tax_amount inp

/-- The subtotal summary row appended on line 57. -/
def subtotalRow (inp : InvoiceRequest) : List String :=
  ["", "", "Subtotal:", inp.currency ++ " " ++ format2 (total_amount inp)]

/-- The tax summary row appended on line 58. -/
def taxRow (inp : InvoiceRequest) : List String :=
  ["", "", "Tax (" ++ pyFloatStr inp.tax_percentage ++ "%):",
   inp.currency ++ " " ++ format2 (tax_amount inp)]

/-- The grand-total summary row appended on line 59. -/
def grandTotalRow (inp : InvoiceRequest) : List String :=
  ["", "", "Grand Total:", inp.currency ++ " " ++ format2 (grand_total inp)]

/-- The complete table `data` handed to `Table(...)` on line 62: header
row seeded on line 42, item rows from the loop, then the three summary
rows of lines 57-59. -/
def invoiceRows (inp : InvoiceRequest) : List (List String) :=
  (itemsLoop inp.items [headerRow inp.currency] 0).1 ++
    [subtotalRow inp, taxRow inp, grandTotalRow inp]

/-- Page layout constant (line 17). -/
def left_margin : ℤ := 50

/-- Page layout constant (line 18). -/
def top_margin : ℤ := 600

/-- Page layout constant (line 19). -/
def bottom_margin : ℤ := 50

/-- The y coordinate at which the table is drawn (line 78):
`top_margin - 250 - len(items) * 20`.  `drawOn` places the lower-left
corner of the table at this height; the source performs no check against
the bottom margin before drawing. -/
def tableDrawY (nItems : ℕ) : ℤ := top_margin - 250 - (nItems : ℤ) * 20

/-- A timestamp as the source consumes it: the formatted date string
(`%Y-%m-%d`) and time string (`%H:%M:%S`) of one `datetime.now()` read. -/
structure PyDateTime where
  dateStr : String
  timeStr : String
deriving DecidableEq

/-- The two timestamp text lines drawn on lines 38-39.  Each line performs
its own `datetime.now()` call, modelled as reads 0 and 1 of an explicit
clock sequence: the invoice date comes from the first read, the purchase
time from the second. -/
def timestampLines (clock : ℕ → PyDateTime) : List String :=
  ["Invoice Date: " ++ (clock 0).dateStr, "Purchase Time: " ++ (clock 1).timeStr]

/-! ### Structural lemmas about the item loop -/

/-- The accumulated total of the loop is the starting total plus the sum
of the exact line totals. -/
theorem itemsLoop_snd (items : List LineItem) (data : List (List String)) (total : ℚ) :
    (itemsLoop items data total).2 = total + (items.map lineTotal).sum := by
  induction items generalizing data total with
  | nil => simp [itemsLoop]
  | cons it rest ih =>
      simp only [itemsLoop, ih, List.map_cons, List.sum_cons, lineTotal]
      ring

/-- The data list built by the loop is the seed followed by one display
row per item, in input order. -/
theorem itemsLoop_fst (items : List LineItem) (data : List (List String)) (total : ℚ) :
    (itemsLoop items data total).1 = data ++ items.map itemRow := by
  induction items generalizing data total with
  | nil => simp [itemsLoop]
  | cons it rest ih =>
      simp [itemsLoop, ih, itemRow]

/-- The full row sequence: header row, item rows in input order, then the
three summary rows. -/
theorem invoiceRows_eq (inp : InvoiceRequest) :
    invoiceRows inp =
      headerRow inp.currency ::
        (inp.items.map itemRow ++ [subtotalRow inp, taxRow inp, grandTotalRow inp]) := by
  simp [invoiceRows, itemsLoop_fst]

/-- The table always has `1 + n + 3` rows for `n` items. -/
theorem invoiceRows_length (inp : InvoiceRequest) :
    (invoiceRows inp).length = 1 + inp.items.length + 3 := by
  simp [invoiceRows_eq inp]
  omega

/-! ### Concrete inputs used by examples, witnesses and counterexamples -/

/-- The worked example of the spec: two items, 18% tax. -/
def exampleInput : InvoiceRequest :=
  { company_name := "Acme", customer_name := "Jo", customer_email := "jo@x",
    items := [⟨"Widget", 2, 50⟩, ⟨"Gadget", 1, 150⟩], currency := "$",
    tax_percentage := 18 }

/-- The worked example with its two items swapped. -/
def permutedInput : InvoiceRequest :=
  { company_name := "Acme", customer_name := "Jo", customer_email := "jo@x",
    items := [⟨"Gadget", 1, 150⟩, ⟨"Widget", 2, 50⟩], currency := "$",
    tax_percentage := 18 }

/-- An otherwise valid request with an empty item list. -/
def emptyItemsInput : InvoiceRequest :=
  { company_name := "Acme", customer_name := "Jo", customer_email := "jo@x",
    items := [], currency := "₹", tax_percentage := 18 }

/-- A request containing a negative quantity. -/
def negativeQtyInput : InvoiceRequest :=
  { company_name := "Acme", customer_name := "Jo", customer_email := "jo@x",
    items := [⟨"Gizmo", -1, 10⟩], currency := "$", tax_percentage := 18 }

/-- A request with 16 items, enough to push the table draw position below
the bottom margin. -/
def overflowInput : InvoiceRequest :=
  { company_name := "Acme", customer_name := "Jo", customer_email := "jo@x",
    items := List.replicate 16 ⟨"Bolt", 1, 1⟩, currency := "$",
    tax_percentage := 0 }

/-- A clock whose two reads straddle midnight: read 0 is just before, read
1 just after. -/
def skewClock : ℕ → PyDateTime := fun n =>
  if n = 0 then ⟨"2026-10-11", "23:59:59"⟩ else ⟨"2026-10-12", "00:00:00"⟩

/-! ### Claims -/

/-- Claim C1: for every item list whose quantities are all at least 1 and
unit prices all nonnegative, and every tax percent in `[0,100]`, the totals
computed by `generate_invoice` satisfy `subtotal = Σ quantity_i * unitPrice_i`,
`taxAmount = subtotal * taxPercent / 100` and `grandTotal = subtotal + taxAmount`,
the subtotal being accumulated from the exact (unrounded) line totals. -/
theorem C1_totals_formulas (inp : InvoiceRequest)
    (hq : ∀ it ∈ inp.items, 1 ≤ it.qty)
    (hp : ∀ it ∈ inp.items, 0 ≤ it.price)
    (ht0 : 0 ≤ inp.tax_percentage) (ht1 : inp.tax_percentage ≤ 100) :
    total_amount inp = (inp.items.map lineTotal).sum ∧
    tax_amount inp = total_amount inp * inp.tax_percentage / 100 ∧
    grand_total inp = total_amount inp + tax_amount inp := by
  refine ⟨?_, rfl, rfl⟩
  simp [total_amount, itemsLoop_snd]

/-- Witness for C1 at the worked example. -/
theorem C1_totals_formulas_witness :
    total_amount exampleInput = (exampleInput.items.map lineTotal).sum ∧
    tax_amount exampleInput =
      total_amount exampleInput * exampleInput.tax_percentage / 100 ∧
    grand_total exampleInput = total_amount exampleInput + tax_amount exampleInput :=
  C1_totals_formulas exampleInput (by decide) (by decide) (by decide) (by decide)

/-- Claim C2: for every valid item list and tax percent, the table row
sequence is exactly one header row of column titles (the currency symbol
appearing in the third and fourth header), then one row per input item in
input order, then the Subtotal, Tax and Grand Total summary rows in that
fixed order, so the row count is `1 + n + 3`. -/
theorem C2_row_sequence (inp : InvoiceRequest)
    (hq : ∀ it ∈ inp.items, 1 ≤ it.qty)
    (hp : ∀ it ∈ inp.items, 0 ≤ it.price)
    (ht0 : 0 ≤ inp.tax_percentage) (ht1 : inp.tax_percentage ≤ 100) :
    invoiceRows inp =
      headerRow inp.currency ::
        (inp.items.map itemRow ++ [subtotalRow inp, taxRow inp, grandTotalRow inp]) ∧
    headerRow inp.currency =
      ["Item", "Quantity", "Unit Price (" ++ inp.currency ++ ")",
       "Total Price (" ++ inp.currency ++ ")"] ∧
    subtotalRow inp =
      ["", "", "Subtotal:", inp.currency ++ " " ++ format2 (total_amount inp)] ∧
    taxRow inp =
      ["", "", "Tax (" ++ pyFloatStr inp.tax_percentage ++ "%):",
       inp.currency ++ " " ++ format2 (tax_amount inp)] ∧
    grandTotalRow inp =
      ["", "", "Grand Total:", inp.currency ++ " " ++ format2 (grand_total inp)] ∧
    (invoiceRows inp).length = 1 + inp.items.length + 3 :=
  ⟨invoiceRows_eq inp, rfl, rfl, rfl, rfl, invoiceRows_length inp⟩

/-- Witness for C2 at the worked example. -/
theorem C2_row_sequence_witness :
    invoiceRows exampleInput =
      headerRow exampleInput.currency ::
        (exampleInput.items.map itemRow ++
          [subtotalRow exampleInput, taxRow exampleInput, grandTotalRow exampleInput]) ∧
    headerRow exampleInput.currency =
      ["Item", "Quantity", "Unit Price (" ++ exampleInput.currency ++ ")",
       "Total Price (" ++ exampleInput.currency ++ ")"] ∧
    subtotalRow exampleInput =
      ["", "", "Subtotal:",
       exampleInput.currency ++ " " ++ format2 (total_amount exampleInput)] ∧
    taxRow exampleInput =
      ["", "", "Tax (" ++ pyFloatStr exampleInput.tax_percentage ++ "%):",
       exampleInput.currency ++ " " ++ format2 (tax_amount exampleInput)] ∧
    grandTotalRow exampleInput =
      ["", "", "Grand Total:",
       exampleInput.currency ++ " " ++ format2 (grand_total exampleInput)] ∧
    (invoiceRows exampleInput).length = 1 + exampleInput.items.length + 3 :=
  C2_row_sequence exampleInput (by decide) (by decide) (by decide) (by decide)

/-- Claim C3 counterexample: on the example input
`[("Widget", 2, 50.00), ("Gadget", 1, 150.00)]` with 18% tax the table has
6 rows (1 header + 2 item rows + 3 summary rows), not the 7 rows (4 rows
of header/item data) the claim asserts. -/
theorem C3_counterexample :
    (invoiceRows exampleInput).length = 6 ∧ (invoiceRows exampleInput).length ≠ 7 := by
  have h : (invoiceRows exampleInput).length = 6 := by
    rw [invoiceRows_length]
    simp [exampleInput]
  exact ⟨h, by omega⟩

/-- Claim C3 as amended: on the example input the subtotal is 250, the tax
amount 45 and the grand total 295, and the assembled table is the 6-row
sequence of one header row, the two item rows, and the three summary
rows. -/
theorem C3_worked_example :
    total_amount exampleInput = 250 ∧
    tax_amount exampleInput = 45 ∧
    grand_total exampleInput = 295 ∧
    invoiceRows exampleInput =
      [["Item", "Quantity", "Unit Price ($)", "Total Price ($)"],
       ["Widget", "2", "50.00", "100.00"],
       ["Gadget", "1", "150.00", "150.00"],
       ["", "", "Subtotal:", "$ 250.00"],
       ["", "", "Tax (18.0%):", "$ 45.00"],
       ["", "", "Grand Total:", "$ 295.00"]] ∧
    (invoiceRows exampleInput).length = 6 := by
  refine ⟨?_, ?_, ?_, ?_, ?_⟩ <;> with_unfolding_all rfl

/-- Claim C4: the grand total equals subtotal plus tax amount exactly, at
full precision; the subtotal is the exact sum of the unrounded line totals;
and rounding to two decimals happens once per displayed value, via
`format2` applied to the exact quantity in the display cells only. -/
theorem C4_exact_totals_display_rounding (inp : InvoiceRequest)
    (hq : ∀ it ∈ inp.items, 1 ≤ it.qty)
    (hp : ∀ it ∈ inp.items, 0 ≤ it.price)
    (ht0 : 0 ≤ inp.tax_percentage) (ht1 : inp.tax_percentage ≤ 100) :
    grand_total inp = total_amount inp + tax_amount inp ∧
    total_amount inp = (inp.items.map lineTotal).sum ∧
    (∀ it ∈ inp.items,
      itemRow it = [it.item_name, toString it.qty, format2 it.price, format2 (lineTotal it)]) ∧
    subtotalRow inp =
      ["", "", "Subtotal:", inp.currency ++ " " ++ format2 (total_amount inp)] ∧
    taxRow inp =
      ["", "", "Tax (" ++ pyFloatStr inp.tax_percentage ++ "%):",
       inp.currency ++ " " ++ format2 (tax_amount inp)] ∧
    grandTotalRow inp =
      ["", "", "Grand Total:", inp.currency ++ " " ++ format2 (grand_total inp)] := by
  refine ⟨rfl, ?_, ?_, rfl, rfl, rfl⟩
  · simp [total_amount, itemsLoop_snd]
  · intro it _
    rfl

/-- Witness for C4 at the worked example. -/
theorem C4_exact_totals_display_rounding_witness :
    grand_total exampleInput = total_amount exampleInput + tax_amount exampleInput ∧
    total_amount exampleInput = (exampleInput.items.map lineTotal).sum ∧
    (∀ it ∈ exampleInput.items,
      itemRow it =
        [it.item_name, toString it.qty, format2 it.price, format2 (lineTotal it)]) ∧
    subtotalRow exampleInput =
      ["", "", "Subtotal:",
       exampleInput.currency ++ " " ++ format2 (total_amount exampleInput)] ∧
    taxRow exampleInput =
      ["", "", "Tax (" ++ pyFloatStr exampleInput.tax_percentage ++ "%):",
       exampleInput.currency ++ " " ++ format2 (tax_amount exampleInput)] ∧
    grandTotalRow exampleInput =
      ["", "", "Grand Total:",
       exampleInput.currency ++ " " ++ format2 (grand_total exampleInput)] :=
  C4_exact_totals_display_rounding exampleInput
    (by decide) (by decide) (by decide) (by decide)

/-- Claim C5 counterexample: on the empty item list `generate_invoice`
does not fail; it builds a complete 4-row table (header plus three
summary rows showing zero totals).  The source contains no validation and
no error path. -/
theorem C5_counterexample :
    invoiceRows emptyItemsInput =
      [["Item", "Quantity", "Unit Price (₹)", "Total Price (₹)"],
       ["", "", "Subtotal:", "₹ 0.00"],
       ["", "", "Tax (18.0%):", "₹ 0.00"],
       ["", "", "Grand Total:", "₹ 0.00"]] := by
  with_unfolding_all rfl

/-- Claim C5 as amended: the code never rejects the empty item list; it
produces a 4-row document whose summary rows all display the zero total,
and for every item list (empty or not) the total function yields a table
of `1 + n + 3` rows, never an error. -/
theorem C5_empty_items_document (inp : InvoiceRequest) :
    invoiceRows { inp with items := [] } =
      [headerRow inp.currency,
       ["", "", "Subtotal:", inp.currency ++ " " ++ format2 0],
       ["", "", "Tax (" ++ pyFloatStr inp.tax_percentage ++ "%):",
        inp.currency ++ " " ++ format2 0],
       ["", "", "Grand Total:", inp.currency ++ " " ++ format2 0]] ∧
    (invoiceRows inp).length = 1 + inp.items.length + 3 := by
  have h0 : total_amount { inp with items := [] } = 0 := by
    simp [total_amount, itemsLoop]
  have h1 : tax_amount { inp with items := [] } = 0 := by
    simp [tax_amount, h0]
  have h2 : grand_total { inp with items := [] } = 0 := by
    simp [grand_total, h0, h1]
  refine ⟨?_, invoiceRows_length inp⟩
  simp [invoiceRows, itemsLoop, subtotalRow, taxRow, grandTotalRow, h0, h1, h2]

/-- Claim C6 counterexample: an input with quantity `-1` is not rejected;
the code builds the full document, carrying the negative value into the
line total, subtotal, tax and grand total. -/
theorem C6_counterexample :
    invoiceRows negativeQtyInput =
      [["Item", "Quantity", "Unit Price ($)", "Total Price ($)"],
       ["Gizmo", "-1", "10.00", "-10.00"],
       ["", "", "Subtotal:", "$ -10.00"],
       ["", "", "Tax (18.0%):", "$ -1.80"],
       ["", "", "Grand Total:", "$ -11.80"]] ∧
    total_amount negativeQtyInput = -10 := by
  refine ⟨?_, ?_⟩ <;> with_unfolding_all rfl

/-- Claim C6 as amended: `generate_invoice` performs no defensive
validation; for every input containing a negative quantity, a negative
unit price or a negative tax percent, it still produces the full
`1 + n + 3`-row document, and the negative values flow unchecked through
the arithmetic. -/
theorem C6_no_validation (inp : InvoiceRequest)
    (h : (∃ it ∈ inp.items, it.qty < 0 ∨ it.price < 0) ∨ inp.tax_percentage < 0) :
    (invoiceRows inp).length = 1 + inp.items.length + 3 ∧
    total_amount inp = (inp.items.map lineTotal).sum ∧
    tax_amount inp = total_amount inp * inp.tax_percentage / 100 ∧
    grand_total inp = total_amount inp + tax_amount inp :=
  ⟨invoiceRows_length inp, by simp [total_amount, itemsLoop_snd], rfl, rfl⟩

/-- Witness for the amended C6 at the negative-quantity input. -/
theorem C6_no_validation_witness :
    (invoiceRows negativeQtyInput).length = 1 + negativeQtyInput.items.length + 3 ∧
    total_amount negativeQtyInput = (negativeQtyInput.items.map lineTotal).sum ∧
    tax_amount negativeQtyInput =
      total_amount negativeQtyInput * negativeQtyInput.tax_percentage / 100 ∧
    grand_total negativeQtyInput =
      total_amount negativeQtyInput + tax_amount negativeQtyInput :=
  C6_no_validation negativeQtyInput (by decide)

/-- Claim C7 counterexample: with 16 items the y coordinate handed to
`drawOn` (line 78) is 30, below the bottom margin of 50, yet the code
still builds the full 20-row table and draws it; no `LayoutOverflow`
condition exists anywhere in the source. -/
theorem C7_counterexample :
    tableDrawY overflowInput.items.length < bottom_margin ∧
    (invoiceRows overflowInput).length = 1 + 16 + 3 := by
  refine ⟨by decide, ?_⟩
  rw [invoiceRows_length]
  simp [overflowInput]

/-- Claim C7 as amended: the code performs no overflow check and has no
failure path; the table is always drawn with its lower-left corner at
`top_margin - 250 - 20 * n`, which falls below the bottom margin as soon
as the item count exceeds 15, silently drawing outside the intended page
region while the full row set is still produced. -/
theorem C7_draws_below_margin (inp : InvoiceRequest)
    (h : 15 < inp.items.length) :
    tableDrawY inp.items.length < bottom_margin ∧
    (invoiceRows inp).length = 1 + inp.items.length + 3 := by
  refine ⟨?_, invoiceRows_length inp⟩
  simp only [tableDrawY, top_margin, bottom_margin]
  omega

/-- Witness for the amended C7 at the 16-item input. -/
theorem C7_draws_below_margin_witness :
    tableDrawY overflowInput.items.length < bottom_margin ∧
    (invoiceRows overflowInput).length = 1 + overflowInput.items.length + 3 :=
  C7_draws_below_margin overflowInput (by decide)

/-- Claim C8 counterexample: the wall clock is read twice (lines 38-39),
once for the invoice date and once for the purchase time.  With a clock
whose two reads straddle midnight, the drawn line pair matches neither a
single capture at the first read nor a single capture at the second, so
the two displayed values do not come from one captured timestamp. -/
theorem C8_counterexample :
    timestampLines skewClock ≠ timestampLines (fun _ => skewClock 0) ∧
    timestampLines skewClock ≠ timestampLines (fun _ => skewClock 1) := by
  refine ⟨?_, ?_⟩ <;> decide

/-- Claim C8 as amended: the clock is sampled twice per render, the
invoice date coming from the first read and the purchase time from the
second; the modelled rendering output is deterministic once the two clock
reads and the input are fixed. -/
theorem C8_two_clock_reads (inp : InvoiceRequest) (c₁ c₂ : ℕ → PyDateTime)
    (h0 : c₁ 0 = c₂ 0) (h1 : c₁ 1 = c₂ 1) :
    timestampLines c₁ = timestampLines c₂ ∧
    timestampLines c₁ =
      ["Invoice Date: " ++ (c₁ 0).dateStr, "Purchase Time: " ++ (c₁ 1).timeStr] ∧
    (timestampLines c₁, invoiceRows inp) = (timestampLines c₂, invoiceRows inp) := by
  simp [timestampLines, h0, h1]

/-- Witness for the amended C8: two clocks with equal first and second
reads yield identical output on the worked example. -/
theorem C8_two_clock_reads_witness :
    timestampLines skewClock = timestampLines (fun n => skewClock (min n 1)) ∧
    timestampLines skewClock =
      ["Invoice Date: " ++ (skewClock 0).dateStr,
       "Purchase Time: " ++ (skewClock 1).timeStr] ∧
    (timestampLines skewClock, invoiceRows exampleInput) =
      (timestampLines (fun n => skewClock (min n 1)), invoiceRows exampleInput) :=
  C8_two_clock_reads exampleInput skewClock (fun n => skewClock (min n 1))
    (by decide) (by decide)

/-- Claim C9: the currency symbol never participates in arithmetic.
Changing only the currency leaves the subtotal, tax amount, grand total
and every item row (including the per-line total cells) unchanged; only
the header titles and the currency prefix of the summary value cells
change. -/
theorem C9_currency_pure_label (inp : InvoiceRequest) (c : String)
    (hq : ∀ it ∈ inp.items, 1 ≤ it.qty)
    (hp : ∀ it ∈ inp.items, 0 ≤ it.price)
    (ht0 : 0 ≤ inp.tax_percentage) (ht1 : inp.tax_percentage ≤ 100) :
    total_amount { inp with currency := c } = total_amount inp ∧
    tax_amount { inp with currency := c } = tax_amount inp ∧
    grand_total { inp with currency := c } = grand_total inp ∧
    ({ inp with currency := c }).items.map itemRow = inp.items.map itemRow ∧
    invoiceRows { inp with currency := c } =
      headerRow c ::
        (inp.items.map itemRow ++
          [["", "", "Subtotal:", c ++ " " ++ format2 (total_amount inp)],
           ["", "", "Tax (" ++ pyFloatStr inp.tax_percentage ++ "%):",
            c ++ " " ++ format2 (tax_amount inp)],
           ["", "", "Grand Total:", c ++ " " ++ format2 (grand_total inp)]]) := by
  have htot : total_amount { inp with currency := c } = total_amount inp := by
    simp [total_amount, itemsLoop_snd]
  have htax : tax_amount { inp with currency := c } = tax_amount inp := by
    simp [tax_amount, htot]
  have hgrand : grand_total { inp with currency := c } = grand_total inp := by
    simp [grand_total, htot, htax]
  refine ⟨htot, htax, hgrand, rfl, ?_⟩
  rw [invoiceRows_eq]
  simp [subtotalRow, taxRow, grandTotalRow, htot, htax, hgrand]

/-- Witness for C9: swapping the dollar for the euro symbol on the worked
example. -/
theorem C9_currency_pure_label_witness :
    total_amount { exampleInput with currency := "€" } = total_amount exampleInput ∧
    tax_amount { exampleInput with currency := "€" } = tax_amount exampleInput ∧
    grand_total { exampleInput with currency := "€" } = grand_total exampleInput ∧
    ({ exampleInput with currency := "€" }).items.map itemRow =
      exampleInput.items.map itemRow ∧
    invoiceRows { exampleInput with currency := "€" } =
      headerRow "€" ::
        (exampleInput.items.map itemRow ++
          [["", "", "Subtotal:", "€" ++ " " ++ format2 (total_amount exampleInput)],
           ["", "", "Tax (" ++ pyFloatStr exampleInput.tax_percentage ++ "%):",
            "€" ++ " " ++ format2 (tax_amount exampleInput)],
           ["", "", "Grand Total:",
            "€" ++ " " ++ format2 (grand_total exampleInput)]]) :=
  C9_currency_pure_label exampleInput "€" (by decide) (by decide) (by decide) (by decide)

/-- Claim C10: permuting the item list permutes the item rows
correspondingly and leaves subtotal, tax amount and grand total unchanged
under exact rational arithmetic. -/
theorem C10_permutation_invariant (inp₁ inp₂ : InvoiceRequest)
    (hperm : inp₁.items.Perm inp₂.items)
    (htax : inp₁.tax_percentage = inp₂.tax_percentage) :
    total_amount inp₁ = total_amount inp₂ ∧
    tax_amount inp₁ = tax_amount inp₂ ∧
    grand_total inp₁ = grand_total inp₂ ∧
    (inp₁.items.map itemRow).Perm (inp₂.items.map itemRow) := by
  have hsum : total_amount inp₁ = total_amount inp₂ := by
    simp only [total_amount, itemsLoop_snd, zero_add]
    exact (hperm.map lineTotal).sum_eq
  exact ⟨hsum, by simp [tax_amount, hsum, htax], by simp [grand_total, tax_amount, hsum, htax],
    hperm.map itemRow⟩

/-- Witness for C10: the worked example against its swapped version. -/
theorem C10_permutation_invariant_witness :
    total_amount exampleInput = total_amount permutedInput ∧
    tax_amount exampleInput = tax_amount permutedInput ∧
    grand_total exampleInput = grand_total permutedInput ∧
    (exampleInput.items.map itemRow).Perm (permutedInput.items.map itemRow) :=
  C10_permutation_invariant exampleInput permutedInput
    (show [LineItem.mk "Widget" 2 50, LineItem.mk "Gadget" 1 150].Perm
        [LineItem.mk "Gadget" 1 150, LineItem.mk "Widget" 2 50] from
      List.Perm.swap (LineItem.mk "Gadget" 1 150) (LineItem.mk "Widget" 2 50) []) rfl

end Invoice
